import Mathlib

/-!
Verification development for the python-pilosa client library
(`pilosa/client.py`).  The Python source is shallowly embedded:

* JSON values decoded by `requests.Response.json()` are modelled by `JValue`;
* Python exceptions that the client code can raise are modelled by `Raised`;
* the classes `BitmapResult`, `CountResultItem`, `QueryResult`, `ProfileItem`,
  `QueryResponse`, `URI`, `Cluster` and `Client` are modelled by structures of
  the same names, their methods by functions of the same names;
* the HTTP transport (`requests.post` / `requests.delete`) is modelled by a
  function `net : String → String → String → Transport` mapping the method
  name, the full URL (`uri.normalize() + path`) and the request body to the
  outcome of the round trip (a response, or a connection error).

All definitions are executable.
-/

namespace Pilosa

/-- A parsed JSON value, as returned by `response.json()` in Python.
`jobj` keeps the field list in order; JSON objects produced by the json
module have pairwise distinct keys. -/
inductive JValue where
  | jnull : JValue
  | jbool : Bool → JValue
  | jint : Int → JValue
  | jstr : String → JValue
  | jarr : List JValue → JValue
  | jobj : List (String × JValue) → JValue
deriving Repr, BEq

/-- Key lookup in the field list of a JSON object: Python `d.get(k)` /
`d[k]` on a dict. -/
def lookupField (fields : List (String × JValue)) (k : String) : Option JValue :=
  match fields with
  | [] => none
  | (k1, v) :: rest => if k1 = k then some v else lookupField rest k

/-- Python truthiness of a JSON value (`bool(v)`). -/
def JValue.truthy : JValue → Bool
  | .jnull => false
  | .jbool b => b
  | .jint n => n != 0
  | .jstr s => s != ""
  | .jarr l => !l.isEmpty
  | .jobj l => !l.isEmpty

/-- Python `x or dflt` applied to an optional value `x` (the result of
`d.get(k)`, which is `None` when the key is absent). -/
def truthyOr (x : Option JValue) (dflt : JValue) : JValue :=
  match x with
  | some v => if v.truthy then v else dflt
  | none => dflt

/-- Python iteration over a JSON value: a list yields its elements, a string
its characters, a dict its keys; other values raise `TypeError` (`none`). -/
def pyIter : JValue → Option (List JValue)
  | .jarr xs => some xs
  | .jstr s => some (s.data.map fun c => .jstr (String.mk [c]))
  | .jobj fields => some (fields.map fun kv => .jstr kv.1)
  | _ => none

/-- `class BitmapResult`: `bits` and `attributes` hold whatever Python values
the constructor received (after the `or` defaults). -/
structure BitmapResult where
  bits : JValue
  attributes : JValue
deriving Repr, BEq

/-- `BitmapResult()` with no arguments: `bits = None or [] = []`,
`attributes = None or {} = {}`. -/
def BitmapResult.empty : BitmapResult := ⟨.jarr [], .jobj []⟩

/-- `BitmapResult.from_dict(d)`: `None` input yields the empty result;
a dict input goes through the constructor, whose `or` defaults replace
falsy values; a non-dict input raises `AttributeError` (`none`). -/
def BitmapResult.from_dict : Option JValue → Option BitmapResult
  | none => some BitmapResult.empty
  | some (.jobj fields) =>
      some ⟨truthyOr (lookupField fields "bits") (.jarr []),
            truthyOr (lookupField fields "attrs") (.jobj [])⟩
  | some _ => none

/-- `class CountResultItem`: fields hold the raw values of `d["id"]` and
`d["count"]`. -/
structure CountResultItem where
  id : JValue
  count : JValue
deriving Repr, BEq

/-- `CountResultItem.from_dict(d)`: `d["id"]` / `d["count"]` raise
`KeyError` when absent and `TypeError` on a non-dict (`none`). -/
def CountResultItem.from_dict : JValue → Option CountResultItem
  | .jobj fields =>
      match lookupField fields "id", lookupField fields "count" with
      | some i, some c => some ⟨i, c⟩
      | _, _ => none
  | _ => none

/-- `class QueryResult`.  `count` is an integer (Python `bool` counts as
`int`; `True` is the integer 1). -/
structure QueryResult where
  bitmap : BitmapResult
  count_items : List CountResultItem
  count : Int
deriving Repr, BEq

/-- `QueryResult()` with no arguments. -/
def QueryResult.empty : QueryResult := ⟨BitmapResult.empty, [], 0⟩

/-- The list comprehension `[CountResultItem.from_dict(x) for x in item]`:
fails as soon as one element fails. -/
def countItemsFromList : List JValue → Option (List CountResultItem)
  | [] => some []
  | x :: xs =>
      match CountResultItem.from_dict x, countItemsFromList xs with
      | some c, some cs => some (c :: cs)
      | _, _ => none

/-- `QueryResult.from_item(item)`: dispatch on the dynamic type of the JSON
value — dict, list, int (which in Python includes `bool`), and a default
fall-through that keeps the fresh `cls()` untouched. -/
def QueryResult.from_item : JValue → Option QueryResult
  | .jobj fields => (BitmapResult.from_dict (some (.jobj fields))).map fun b => ⟨b, [], 0⟩
  | .jarr items => (countItemsFromList items).map fun cis => ⟨BitmapResult.empty, cis, 0⟩
  | .jint n => some ⟨BitmapResult.empty, [], n⟩
  | .jbool b => some ⟨BitmapResult.empty, [], if b then 1 else 0⟩
  | _ => some QueryResult.empty

/-- `class ProfileItem`. -/
structure ProfileItem where
  id : JValue
  attributes : JValue
deriving Repr, BEq

/-- `ProfileItem.from_dict(d)`: `d["id"]`, `d["attrs"]`. -/
def ProfileItem.from_dict : JValue → Option ProfileItem
  | .jobj fields =>
      match lookupField fields "id", lookupField fields "attrs" with
      | some i, some a => some ⟨i, a⟩
      | _, _ => none
  | _ => none

/-- The list comprehension `[QueryResult.from_item(r) for r in ...]`. -/
def resultsFromList : List JValue → Option (List QueryResult)
  | [] => some []
  | x :: xs =>
      match QueryResult.from_item x, resultsFromList xs with
      | some r, some rs => some (r :: rs)
      | _, _ => none

/-- The list comprehension `[ProfileItem.from_dict(p) for p in ...]`. -/
def profilesFromList : List JValue → Option (List ProfileItem)
  | [] => some []
  | x :: xs =>
      match ProfileItem.from_dict x, profilesFromList xs with
      | some p, some ps => some (p :: ps)
      | _, _ => none

/-- `class QueryResponse`; `error_message` is set by `from_dict`
(`d.get("error", "")`). -/
structure QueryResponse where
  results : List QueryResult
  profiles : List ProfileItem
  error_message : JValue
deriving Repr, BEq

/-- `QueryResponse.from_dict(d)`: iterates `d.get("results", [])` and
`d.get("profiles", [])`; a Python-level exception anywhere yields `none`. -/
def QueryResponse.from_dict : JValue → Option QueryResponse
  | .jobj fields =>
      match pyIter ((lookupField fields "results").getD (.jarr [])) with
      | none => none
      | some ritems =>
        match resultsFromList ritems with
        | none => none
        | some rs =>
          match pyIter ((lookupField fields "profiles").getD (.jarr [])) with
          | none => none
          | some pitems =>
            match profilesFromList pitems with
            | none => none
            | some ps => some ⟨rs, ps, (lookupField fields "error").getD (.jstr "")⟩
  | _ => none

/-- `QueryResponse.result`: `self.results[0] if self.results else None`. -/
def QueryResponse.result (r : QueryResponse) : Option QueryResult := r.results.head?

/-- `QueryResponse.profile`: `self.profiles[0] if self.profiles else None`. -/
def QueryResponse.profile (r : QueryResponse) : Option ProfileItem := r.profiles.head?

/-- Fuel-driven renderer of the decimal digits of a natural number,
most significant first; models Python `str(n)` for a non-negative `int`
(ports are non-negative).  The fuel `n + 1` always suffices. -/
def natToDecAux : Nat → Nat → List Char → List Char
  | 0, _, acc => acc
  | fuel + 1, n, acc =>
      if n < 10 then Nat.digitChar n :: acc
      else natToDecAux fuel (n / 10) (Nat.digitChar (n % 10) :: acc)

/-- The decimal digit string of `n`, as `str(n)` produces it. -/
def natToDec (n : Nat) : List Char := natToDecAux (n + 1) n []

/-- `str(n)` as a Lean string. -/
def natDecStr (n : Nat) : String := String.mk (natToDec n)

/-- Python `int(s)` on a string of decimal digits. -/
def decToNat (cs : List Char) : Nat :=
  cs.foldl (fun acc c => acc * 10 + (c.toNat - 48)) 0

/-- Character class `[+a-z]` of the scheme group of the URI pattern. -/
def isSchemeChar (c : Char) : Bool := c = '+' || ('a' ≤ c && c ≤ 'z')

/-- Character class `[0-9a-z.-]` of the host group of the URI pattern. -/
def isHostChar (c : Char) : Bool :=
  ('0' ≤ c && c ≤ '9') || ('a' ≤ c && c ≤ 'z') || c = '.' || c = '-'

/-- Character class `[0-9]` of the port group of the URI pattern. -/
def isDigitChar (c : Char) : Bool := '0' ≤ c && c ≤ '9'

/-- The three capture groups of interest of the pattern
`^(([+a-z]+)://)?([0-9a-z.-]+)?(:([0-9]+))?$`: groups 2 (scheme),
3 (host) and 5 (port); `none` for a group that did not participate. -/
structure UriMatch where
  scheme : Option (List Char)
  host : Option (List Char)
  port : Option (List Char)
deriving Repr, DecidableEq

/-- Matching of the optional group `(([+a-z]+)://)?` at the start of the
input: the greedy maximal `[+a-z]`-run followed by the literal `://`.
Backtracking cannot produce any other division, because `:` and `/` are
outside the scheme class. -/
def schemeSplit (cs : List Char) : Option (List Char) × List Char :=
  let run := cs.takeWhile isSchemeChar
  if run = [] then (none, cs)
  else if (cs.drop run.length).take 3 = [':', '/', '/'] then
    (some run, (cs.drop run.length).drop 3)
  else (none, cs)

/-- Matching of the optional group `([0-9a-z.-]+)?`: the greedy maximal
host-class run. -/
def hostSplit (cs : List Char) : Option (List Char) × List Char :=
  let run := cs.takeWhile isHostChar
  if run = [] then (none, cs) else (some run, cs.drop run.length)

/-- Matching of the trailing `(:([0-9]+))?$`: either the end of the input,
or a colon followed by a non-empty digit run reaching the end; `none`
when the whole pattern fails to match. -/
def portSplit : List Char → Option (Option (List Char))
  | [] => some none
  | ':' :: rest =>
      let ds := rest.takeWhile isDigitChar
      if ds = [] then none
      else if rest.drop ds.length = [] then some (some ds)
      else none
  | _ => none

/-- `URI.__PATTERN.search(address)` for the anchored pattern
`^(([+a-z]+)://)?([0-9a-z.-]+)?(:([0-9]+))?$`: `none` models a failed
match.  The three groups are independent once the greedy scheme and host
runs are fixed, which the disjointness of the character classes with
`:` and `/` forces. -/
def uriRegexMatch (cs : List Char) : Option UriMatch :=
  match schemeSplit cs with
  | (g2, rest1) =>
    match hostSplit rest1 with
    | (g3, rest2) =>
      match portSplit rest2 with
      | none => none
      | some g5 => some ⟨g2, g3, g5⟩

/-- `class URI`: scheme, host and port of a Pilosa URI. -/
structure URI where
  scheme : String
  host : String
  port : Nat
deriving Repr, DecidableEq

/-- `URI()` with no arguments: defaults `http`, `localhost`, `10101`. -/
def URI.default : URI := ⟨"http", "localhost", 10101⟩

/-- `URI.__str__`: `"%s://%s:%s" % (scheme, host, port)`. -/
def URI.toStr (u : URI) : String :=
  u.scheme ++ "://" ++ u.host ++ ":" ++ natDecStr u.port

/-- `URI.normalize`: the scheme is truncated at its first `+`
(`scheme.index("+")`; a `ValueError` leaves it unchanged, and taking the
prefix before the first `+` covers both branches), then rendered as
`"%s://%s:%s"`. -/
def URI.normalize (u : URI) : String :=
  String.mk (u.scheme.data.takeWhile fun c => c ≠ '+') ++ "://" ++ u.host ++ ":"
    ++ natDecStr u.port

/-- `URI.__eq__`: structural comparison of scheme, host and port (the other
operand here is always a `URI`, so the `isinstance` guard passes). -/
def URI.eq (a b : URI) : Bool :=
  a.scheme == b.scheme && a.host == b.host && a.port == b.port

/-- The Python exceptions the client code can raise.  `pilosaError` is
`PilosaError(arg)` with a single argument; `serverError` is
`PilosaError("Server error (%d): %s", status_code, content)`;
`valueError` is the `ValueError` that `list.remove` raises on a missing
element; `pyError` stands for the remaining Python-level exceptions
(`KeyError`, `TypeError`, `AttributeError`) escaping the decode path. -/
inductive Raised where
  | pilosaError : JValue → Raised
  | serverError : Nat → String → Raised
  | notAvailable : String → Raised
  | uriError : String → Raised
  | databaseExists : Raised
  | frameExists : Raised
  | valueError : Raised
  | pyError : Raised
deriving Repr, BEq

/-- `URI._parse`: on a successful pattern match, each participating group
overrides the corresponding field (a participating group is non-empty,
hence truthy); `int(port)` converts the digit run.  A failed match raises
`PilosaURIError("Not a Pilosa URI")`. -/
def URI.parseInto (u : URI) (address : String) : Except Raised URI :=
  match uriRegexMatch address.data with
  | none => .error (.uriError "Not a Pilosa URI")
  | some m =>
    let u1 := match m.scheme with
      | some s => { u with scheme := String.mk s }
      | none => u
    let u2 := match m.host with
      | some hst => { u1 with host := String.mk hst }
      | none => u1
    match m.port with
    | some p => .ok { u2 with port := decToNat p }
    | none => .ok u2

/-- `URI.address(address)` classmethod: parse into a fresh default URI. -/
def URI.address (address : String) : Except Raised URI :=
  URI.default.parseInto address

/-- `class Cluster`: the host pool, an ordered list of URIs plus the
round-robin cursor `__next_index`. -/
structure Cluster where
  hosts : List URI
  next_index : Nat
deriving Repr, DecidableEq

/-- `Cluster(*hosts)`: the given hosts, cursor at 0. -/
def Cluster.ofList (hs : List URI) : Cluster := ⟨hs, 0⟩

/-- `Cluster.add_host`: append at the end. -/
def Cluster.add_host (c : Cluster) (uri : URI) : Cluster :=
  ⟨c.hosts ++ [uri], c.next_index⟩

/-- `list.remove`: delete the first element comparing equal (`URI.__eq__`)
to `uri`; `none` when no element does. -/
def removeFirst : List URI → URI → Option (List URI)
  | [], _ => none
  | x :: xs, u =>
      if URI.eq x u then some xs
      else (removeFirst xs u).map fun ys => x :: ys

/-- `Cluster.remove_host`: `self.hosts.remove(uri)`; a missing element
makes `list.remove` raise `ValueError`. -/
def Cluster.remove_host (c : Cluster) (uri : URI) : Except Raised Cluster :=
  match removeFirst c.hosts uri with
  | some hs => .ok ⟨hs, c.next_index⟩
  | none => .error .valueError

/-- `Cluster.get_host`: raise `PilosaError("There are no available hosts")`
on an empty pool; otherwise return `hosts[next_index % len(hosts)]` and
advance `next_index` to `(next_index + 1) % len(hosts)`.  The index is
always in range, so `getD`'s fallback is never used. -/
def Cluster.get_host (c : Cluster) : Except Raised (URI × Cluster) :=
  if c.hosts.length = 0 then
    .error (.pilosaError (.jstr "There are no available hosts"))
  else
    .ok (c.hosts.getD (c.next_index % c.hosts.length) URI.default,
         ⟨c.hosts, (c.next_index + 1) % c.hosts.length⟩)

/-- An HTTP response as the `requests` library presents it: the status
code, the body text (`response.text` and `response.content` coincide in
this model) and the decoded JSON body (`response.json()`). -/
structure HttpResponse where
  status : Nat
  text : String
  json : JValue
deriving Repr, BEq

/-- The outcome of one HTTP round trip: a response, or a
`requests.exceptions.ConnectionError` carrying a message. -/
inductive Transport where
  | ok : HttpResponse → Transport
  | connError : String → Transport
deriving Repr, BEq

/-- The transport environment: maps (method, url, body data) of an issued
request to its outcome, where `url = uri.normalize() + path`. -/
def Net : Type := String → String → String → Transport

/-- The `client_response` argument of `Client.__http_request`:
`__NO_RESPONSE`, `__RAW_RESPONSE`, `__ERROR_CHECKED_RESPONSE = range(3)`. -/
inductive ClientResponseMode where
  | noResponse | rawResponse | errorChecked
deriving Repr, DecidableEq

/-- `Client.__RECOGNIZED_ERRORS`: body text matched verbatim. -/
def recognizedError (text : String) : Option Raised :=
  if text = "database already exists\n" then some .databaseExists
  else if text = "frame already exists\n" then some .frameExists
  else none

/-- Schema metadata for a database (index): out-of-scope ORM object,
visible to the dispatcher only through `name` and `column_label`. -/
structure Database where
  name : String
  column_label : String
deriving Repr, DecidableEq

/-- Schema metadata for a frame: `database`, `name`, `row_label`. -/
structure Frame where
  database : Database
  name : String
  row_label : String
deriving Repr, DecidableEq

/-- A query value handed to the dispatcher: `query.database.name` names
the target database and `text` is `str(query)`, the opaque PQL source. -/
structure PQLQuery where
  database : Database
  text : String
deriving Repr, DecidableEq

/-- `class Client`: the cluster and the host captured once at construction
(`self.__current_host = self.cluster.get_host()`). -/
structure Client where
  cluster : Cluster
  current_host : URI
deriving Repr, DecidableEq

/-- `Client.__init__(cluster)`: stores the cluster and captures
`__current_host` through one `get_host()` call, advancing the shared
cursor; an empty pool makes construction itself raise. -/
def Client.make (cluster : Cluster) : Except Raised Client :=
  match cluster.get_host with
  | .error e => .error e
  | .ok (h, cluster1) => .ok ⟨cluster1, h⟩

/-- `Client.__http_request(method, path, data, client_response)`: select a
host via `get_host()`, issue the request at `uri.normalize() + path`; a
`ConnectionError` removes `self.__current_host` (not the selected host)
and raises `PilosaNotAvailable`; `__RAW_RESPONSE` returns the response
unchecked; otherwise 2xx returns (`None` under `__NO_RESPONSE`), a
recognized error body raises its typed error, and any other non-2xx
raises `PilosaError("Server error (%d): %s", status, content)`. -/
def Client.httpRequest (cl : Client) (net : Net) (method path data : String)
    (mode : ClientResponseMode) : Client × Except Raised (Option HttpResponse) :=
  match cl.cluster.get_host with
  | .error e => (cl, .error e)
  | .ok (uri, cluster1) =>
    match net method (uri.normalize ++ path) data with
    | .connError msg =>
      match cluster1.remove_host cl.current_host with
      | .error e => (⟨cluster1, cl.current_host⟩, .error e)
      | .ok cluster2 => (⟨cluster2, cl.current_host⟩, .error (.notAvailable msg))
    | .ok resp =>
      match mode with
      | .rawResponse => (⟨cluster1, cl.current_host⟩, .ok (some resp))
      | m =>
        if 200 ≤ resp.status ∧ resp.status < 300 then
          (⟨cluster1, cl.current_host⟩,
           .ok (match m with | .noResponse => none | _ => some resp))
        else
          match recognizedError resp.text with
          | some ex => (⟨cluster1, cl.current_host⟩, .error ex)
          | none => (⟨cluster1, cl.current_host⟩, .error (.serverError resp.status resp.text))

/-- `Client.query(query, profiles)`: POST the query text to
`/query?db=<name>[&profiles=true]` with `__RAW_RESPONSE` (no status
check), decode `response.json()`; an `error` key raises
`PilosaError(response["error"])`, otherwise the body is decoded by
`QueryResponse.from_dict`.  A non-dict JSON body raises a Python-level
error (`in` / `__getitem__` / `.get` on a non-dict). -/
def Client.query (cl : Client) (net : Net) (q : PQLQuery) (profiles : Bool) :
    Client × Except Raised QueryResponse :=
  match cl.httpRequest net "post"
      ("/query?db=" ++ q.database.name ++ (if profiles then "&profiles=true" else ""))
      q.text .rawResponse with
  | (cl1, .error e) => (cl1, .error e)
  | (cl1, .ok none) => (cl1, .error .pyError)
  | (cl1, .ok (some resp)) =>
    match resp.json with
    | .jobj fields =>
      match lookupField fields "error" with
      | some v => (cl1, .error (.pilosaError v))
      | none =>
        match QueryResponse.from_dict (.jobj fields) with
        | some qr => (cl1, .ok qr)
        | none => (cl1, .error .pyError)
    | _ => (cl1, .error .pyError)

/-- The serialized body of `__create_or_delete_database`:
`'\x7b"db": "%s", "options": \x7b"columnLabel": "%s"\x7d\x7d'`. -/
def dbData (db : Database) : String :=
  "\x7b\"db\": \"" ++ db.name ++ "\", \"options\": \x7b\"columnLabel\": \""
    ++ db.column_label ++ "\"\x7d\x7d"

/-- The serialized body of `__create_or_delete_frame`. -/
def frameData (f : Frame) : String :=
  "\x7b\"db\": \"" ++ f.database.name ++ "\", \"frame\": \"" ++ f.name
    ++ "\", \"options\": \x7b\"rowLabel\": \"" ++ f.row_label ++ "\"\x7d\x7d"

/-- `Client.__create_or_delete_database(method, database)`: POST/DELETE to
`/db` with the default `__NO_RESPONSE` mode; the returned value is
discarded (Python returns `None`). -/
def Client.create_or_delete_database (cl : Client) (net : Net) (method : String)
    (db : Database) : Client × Except Raised Unit :=
  match cl.httpRequest net method "/db" (dbData db) .noResponse with
  | (cl1, .error e) => (cl1, .error e)
  | (cl1, .ok _) => (cl1, .ok ())

/-- `Client.__create_or_delete_frame(method, frame)`. -/
def Client.create_or_delete_frame (cl : Client) (net : Net) (method : String)
    (f : Frame) : Client × Except Raised Unit :=
  match cl.httpRequest net method "/frame" (frameData f) .noResponse with
  | (cl1, .error e) => (cl1, .error e)
  | (cl1, .ok _) => (cl1, .ok ())

/-- `Client.create_database`. -/
def Client.create_database (cl : Client) (net : Net) (db : Database) :
    Client × Except Raised Unit :=
  cl.create_or_delete_database net "post" db

/-- `Client.delete_database`. -/
def Client.delete_database (cl : Client) (net : Net) (db : Database) :
    Client × Except Raised Unit :=
  cl.create_or_delete_database net "delete" db

/-- `Client.create_frame`. -/
def Client.create_frame (cl : Client) (net : Net) (f : Frame) :
    Client × Except Raised Unit :=
  cl.create_or_delete_frame net "post" f

/-- `Client.delete_frame`. -/
def Client.delete_frame (cl : Client) (net : Net) (f : Frame) :
    Client × Except Raised Unit :=
  cl.create_or_delete_frame net "delete" f

/-- `Client.ensure_database`: `try: create; except DatabaseExistsError:
pass` — exactly that one exception is swallowed. -/
def Client.ensure_database (cl : Client) (net : Net) (db : Database) :
    Client × Except Raised Unit :=
  match cl.create_database net db with
  | (cl1, .error .databaseExists) => (cl1, .ok ())
  | r => r

/-- `Client.ensure_frame`: swallows exactly `FrameExistsError`. -/
def Client.ensure_frame (cl : Client) (net : Net) (f : Frame) :
    Client × Except Raised Unit :=
  match cl.create_frame net f with
  | (cl1, .error .frameExists) => (cl1, .ok ())
  | r => r

/-- Recursive specification of the decimal rendering, used to reason about
the fuel-driven `natToDecAux`. -/
def natToDecCore (n : Nat) : List Char :=
  if _h : n < 10 then [Nat.digitChar n]
  else natToDecCore (n / 10) ++ [Nat.digitChar (n % 10)]
decreasing_by exact Nat.div_lt_self (by omega) (by omega)

/-- `k` successive `get_host()` calls on a pool, collecting the returned
hosts in order; `none` if any call raises. -/
def nextTimes : Nat → Cluster → Option (List URI × Cluster)
  | 0, c => some ([], c)
  | k + 1, c =>
      match c.get_host with
      | .error _ => none
      | .ok (u, c1) => (nextTimes k c1).map fun p => (u :: p.1, p.2)

/-- Concrete host `A` used in the pool scenarios. -/
def uA : URI := ⟨"http", "a", 1⟩

/-- Concrete host `B`. -/
def uB : URI := ⟨"http", "b", 1⟩

/-- Concrete host `C`. -/
def uC : URI := ⟨"http", "c", 1⟩

/-- A fresh pool holding `[A, B, C]`. -/
def clusterABC : Cluster := Cluster.ofList [uA, uB, uC]

/-- A transport in which every host fails with a connection error. -/
def netDown : Net := fun _ _ _ => .connError "connection refused"

/-- A transport answering every request with the same response. -/
def netConst (r : HttpResponse) : Net := fun _ _ _ => .ok r

/-- A concrete query value targeting database `mydb`. -/
def qMy : PQLQuery := ⟨⟨"mydb", "col"⟩, "Bitmap(id=1)"⟩

/-- A 400 response whose JSON body has no `error` key but contains a
malformed result item (an array element without `id`/`count`). -/
def respNoErrBad : HttpResponse :=
  ⟨400, "", .jobj [("results", .jarr [.jarr [.jobj []]])]⟩

/-- A client over the single-host pool `[A]`. -/
def clSingleA : Client := ⟨⟨[uA], 0⟩, uA⟩

/-- A 400 response whose JSON body carries an `error` key. -/
def respErr : HttpResponse := ⟨400, "", .jobj [("error", .jstr "parse error at col_id")]⟩

/-- A 409 response with the exact `database already exists` conflict body. -/
def respDbExists : HttpResponse := ⟨409, "database already exists\n", .jnull⟩

/-- A concrete database spec. -/
def dbMy : Database := ⟨"mydb", "col"⟩

theorem takeWhile_all {p : Char → Bool} {l : List Char}
    (h : ∀ x ∈ l, p x = true) : l.takeWhile p = l := by
  induction l with
  | nil => rfl
  | cons a t ih =>
      simp [List.takeWhile_cons, h a (by simp),
        ih fun x hx => h x (by simp [hx])]

theorem takeWhile_append_stop {p : Char → Bool} {l1 l2 : List Char} {c : Char}
    (h1 : ∀ x ∈ l1, p x = true) (h2 : p c = false) :
    (l1 ++ c :: l2).takeWhile p = l1 := by
  induction l1 with
  | nil => simp [List.takeWhile_cons, h2]
  | cons a t ih =>
      simp [List.takeWhile_cons, h1 a (by simp),
        ih fun x hx => h1 x (by simp [hx])]

theorem digitChar_isDigit : ∀ d < 10, isDigitChar (Nat.digitChar d) = true := by decide

theorem digitChar_val : ∀ d < 10, (Nat.digitChar d).toNat - 48 = d := by decide

theorem natToDecAux_eq (fuel : Nat) :
    ∀ (n : Nat) (acc : List Char), n < fuel →
      natToDecAux fuel n acc = natToDecCore n ++ acc := by
  induction fuel with
  | zero => intro n acc h; omega
  | succ f ih =>
      intro n acc h
      by_cases h10 : n < 10
      · rw [natToDecAux, if_pos h10, natToDecCore, dif_pos h10]
        simp
      · have hdiv : n / 10 < n := Nat.div_lt_self (by omega) (by omega)
        rw [natToDecAux, if_neg h10, ih (n / 10) _ (by omega)]
        conv_rhs => rw [natToDecCore, dif_neg h10]
        simp

theorem natToDec_eq_core (n : Nat) : natToDec n = natToDecCore n := by
  rw [natToDec, natToDecAux_eq (n + 1) n [] (Nat.lt_succ_self n), List.append_nil]

theorem natToDecCore_digits (n : Nat) :
    ∀ c ∈ natToDecCore n, isDigitChar c = true := by
  induction n using Nat.strong_induction_on with
  | _ n ih =>
      rw [natToDecCore]
      split
      · intro c hc
        simp only [List.mem_singleton] at hc
        subst hc
        exact digitChar_isDigit n (by omega)
      · intro c hc
        rcases List.mem_append.1 hc with hl | hr
        · exact ih (n / 10) (Nat.div_lt_self (by omega) (by omega)) c hl
        · simp only [List.mem_singleton] at hr
          subst hr
          exact digitChar_isDigit (n % 10) (Nat.mod_lt _ (by omega))

theorem natToDecCore_ne_nil (n : Nat) : natToDecCore n ≠ [] := by
  rw [natToDecCore]
  split <;> simp

theorem decToNat_append_one (cs : List Char) (c : Char) :
    decToNat (cs ++ [c]) = decToNat cs * 10 + (c.toNat - 48) := by
  rw [decToNat, decToNat, List.foldl_append]
  rfl

theorem decToNat_core (n : Nat) : decToNat (natToDecCore n) = n := by
  induction n using Nat.strong_induction_on with
  | _ n ih =>
      rw [natToDecCore]
      split
      · rename_i h10
        have h1 : decToNat [Nat.digitChar n] = 0 * 10 + ((Nat.digitChar n).toNat - 48) := rfl
        have h2 := digitChar_val n h10
        omega
      · rename_i h10
        rw [decToNat_append_one, ih (n / 10) (Nat.div_lt_self (by omega) (by omega)),
          digitChar_val (n % 10) (Nat.mod_lt _ (by omega))]
        omega

theorem decToNat_natToDec (n : Nat) : decToNat (natToDec n) = n := by
  rw [natToDec_eq_core, decToNat_core]

theorem natToDec_ne_nil (n : Nat) : natToDec n ≠ [] := by
  rw [natToDec_eq_core]
  exact natToDecCore_ne_nil n

theorem natToDec_digits (n : Nat) : ∀ c ∈ natToDec n, isDigitChar c = true := by
  rw [natToDec_eq_core]
  exact natToDecCore_digits n

theorem schemeSplit_render (S rest : List Char) (h1 : S ≠ [])
    (h2 : ∀ c ∈ S, isSchemeChar c = true) :
    schemeSplit (S ++ ':' :: '/' :: '/' :: rest) = (some S, rest) := by
  have htw : (S ++ ':' :: '/' :: '/' :: rest).takeWhile isSchemeChar = S :=
    takeWhile_append_stop h2 (by decide)
  rw [schemeSplit]
  simp only [htw, List.drop_left]
  rw [if_neg h1]
  simp

theorem hostSplit_render (H rest : List Char) (h1 : H ≠ [])
    (h2 : ∀ c ∈ H, isHostChar c = true) :
    hostSplit (H ++ ':' :: rest) = (some H, ':' :: rest) := by
  have htw : (H ++ ':' :: rest).takeWhile isHostChar = H :=
    takeWhile_append_stop h2 (by decide)
  rw [hostSplit]
  simp only [htw, List.drop_left]
  rw [if_neg h1]

theorem portSplit_render (D : List Char) (h1 : D ≠ [])
    (h2 : ∀ c ∈ D, isDigitChar c = true) :
    portSplit (':' :: D) = some (some D) := by
  have htw : D.takeWhile isDigitChar = D := takeWhile_all h2
  rw [portSplit]
  simp only [htw, List.drop_length]
  rw [if_neg h1]
  simp

theorem uriRegexMatch_render (S H D : List Char)
    (hs1 : S ≠ []) (hs2 : ∀ c ∈ S, isSchemeChar c = true)
    (hh1 : H ≠ []) (hh2 : ∀ c ∈ H, isHostChar c = true)
    (hd1 : D ≠ []) (hd2 : ∀ c ∈ D, isDigitChar c = true) :
    uriRegexMatch (S ++ ':' :: '/' :: '/' :: (H ++ ':' :: D))
      = some ⟨some S, some H, some D⟩ := by
  simp only [uriRegexMatch, schemeSplit_render S (H ++ ':' :: D) hs1 hs2,
    hostSplit_render H D hh1 hh2, portSplit_render D hd1 hd2]

theorem toStr_data (u : URI) :
    (URI.toStr u).data
      = u.scheme.data ++ ':' :: '/' :: '/' :: (u.host.data ++ ':' :: natToDec u.port) := by
  show (u.scheme ++ "://" ++ u.host ++ ":" ++ natDecStr u.port).data = _
  rw [String.data_append, String.data_append, String.data_append, natDecStr]
  show (u.scheme.data ++ [':', '/', '/'] ++ u.host.data ++ [':']) ++ natToDec u.port = _
  simp

/-- C5: for every Address whose scheme, host and port lie in the character
classes of the grammar `[[scheme://]host][:port]`, parsing the rendered
text yields the same Address back: `URI.address(str(u)) == u`, with `==`
the structural `URI.__eq__`. -/
theorem C5_round_trip (u : URI)
    (hs1 : u.scheme.data ≠ []) (hs2 : ∀ c ∈ u.scheme.data, isSchemeChar c = true)
    (hh1 : u.host.data ≠ []) (hh2 : ∀ c ∈ u.host.data, isHostChar c = true) :
    URI.address (URI.toStr u) = .ok u
      ∧ ∀ v, URI.address (URI.toStr u) = .ok v → URI.eq v u = true := by
  have hmatch : uriRegexMatch (URI.toStr u).data
      = some ⟨some u.scheme.data, some u.host.data, some (natToDec u.port)⟩ := by
    rw [toStr_data]
    exact uriRegexMatch_render _ _ _ hs1 hs2 hh1 hh2
      (natToDec_ne_nil u.port) (natToDec_digits u.port)
  have hok : URI.address (URI.toStr u) = .ok u := by
    rw [URI.address, URI.parseInto, hmatch]
    show Except.ok ⟨u.scheme, u.host, decToNat (natToDec u.port)⟩ = Except.ok u
    rw [decToNat_natToDec]
  refine ⟨hok, fun v hv => ?_⟩
  rw [hok] at hv
  cases hv
  simp [URI.eq]

/-- Witness for C5 at the default Address `http://localhost:10101`. -/
theorem C5_witness :
    ("http" : String).data ≠ [] ∧ ("localhost" : String).data ≠ []
      ∧ URI.address (URI.toStr URI.default) = .ok URI.default :=
  ⟨by decide, by decide,
    (C5_round_trip URI.default (by decide) (by decide) (by decide) (by decide)).1⟩

theorem get_host_pos (c : Cluster) (h : c.hosts ≠ []) :
    c.get_host = .ok (c.hosts.getD (c.next_index % c.hosts.length) URI.default,
      ⟨c.hosts, (c.next_index + 1) % c.hosts.length⟩) := by
  rw [Cluster.get_host, if_neg (by simpa [List.length_eq_zero] using h)]

theorem get_host_nil (c : Cluster) (h : c.hosts = []) :
    c.get_host = .error (.pilosaError (.jstr "There are no available hosts")) := by
  rw [Cluster.get_host, if_pos (by simp [h])]

/-- C4: on a non-empty pool, `next()` returns the element at index
`cursor % len(pool)` and advances the cursor to `(cursor + 1) % len(pool)`;
on an empty pool it raises `NoAvailableHostError` (the
`PilosaError("There are no available hosts")` of the source); on the fresh
pool `[A, B, C]` four successive calls return `A, B, C, A`. -/
theorem C4_round_robin :
    (∀ c : Cluster, c.hosts ≠ [] →
        c.get_host = .ok (c.hosts.getD (c.next_index % c.hosts.length) URI.default,
          ⟨c.hosts, (c.next_index + 1) % c.hosts.length⟩))
    ∧ (∀ c : Cluster, c.hosts = [] →
        c.get_host = .error (.pilosaError (.jstr "There are no available hosts")))
    ∧ nextTimes 4 clusterABC = some ([uA, uB, uC, uA], ⟨[uA, uB, uC], 1⟩) :=
  ⟨get_host_pos, get_host_nil, by decide⟩

/-- Witness for C4 on the fresh pool `[A, B, C]`. -/
theorem C4_witness :
    clusterABC.hosts ≠ []
      ∧ clusterABC.get_host = .ok (uA, ⟨[uA, uB, uC], 1⟩) :=
  ⟨by decide, C4_round_robin.1 clusterABC (by decide)⟩

theorem removeFirst_match (u : URI) :
    ∀ (l1 : List URI) (x : URI) (l2 : List URI),
      (∀ y ∈ l1, URI.eq y u = false) → URI.eq x u = true →
      removeFirst (l1 ++ x :: l2) u = some (l1 ++ l2) := by
  intro l1
  induction l1 with
  | nil => intro x l2 _ hx; simp [removeFirst, hx]
  | cons a t ih =>
      intro x l2 hall hx
      have ha : URI.eq a u = false := hall a (by simp)
      simp [removeFirst, ha, ih x l2 (fun y hy => hall y (by simp [hy])) hx]

theorem removeFirst_absent (u : URI) :
    ∀ l : List URI, (∀ y ∈ l, URI.eq y u = false) → removeFirst l u = none := by
  intro l
  induction l with
  | nil => intro _; rfl
  | cons a t ih =>
      intro hall
      simp [removeFirst, hall a (by simp), ih fun y hy => hall y (by simp [hy])]

/-- C8: `remove(addr)` deletes the first entry structurally equal
(`URI.__eq__`: same scheme, host and port) to `addr`; when no entry is
structurally equal, it raises (the `ValueError` of `list.remove`, the
spec's `HostNotFoundError`) instead of silently doing nothing. -/
theorem C8_remove_first_structural_match :
    (∀ (c : Cluster) (u : URI) (l1 : List URI) (x : URI) (l2 : List URI),
        c.hosts = l1 ++ x :: l2 →
        (∀ y ∈ l1, URI.eq y u = false) → URI.eq x u = true →
        c.remove_host u = .ok ⟨l1 ++ l2, c.next_index⟩)
    ∧ (∀ (c : Cluster) (u : URI), (∀ y ∈ c.hosts, URI.eq y u = false) →
        c.remove_host u = .error .valueError) := by
  constructor
  · intro c u l1 x l2 hh hall hx
    rw [Cluster.remove_host, hh, removeFirst_match u l1 x l2 hall hx]
  · intro c u hall
    rw [Cluster.remove_host, removeFirst_absent u c.hosts hall]

/-- Witness for C8: removing `B` from `[A, B, C]` keeps `[A, C]`; removing
`B` from `[A]` raises. -/
theorem C8_witness :
    clusterABC.hosts = [uA] ++ uB :: [uC]
      ∧ URI.eq uB uB = true
      ∧ clusterABC.remove_host uB = .ok ⟨[uA] ++ [uC], 0⟩
      ∧ (Cluster.mk [uA] 0).remove_host uB = .error .valueError :=
  ⟨by decide, by decide,
    C8_remove_first_structural_match.1 clusterABC uB [uA] uB [uC]
      (by decide) (by decide) (by decide),
    C8_remove_first_structural_match.2 ⟨[uA], 0⟩ uB (by decide)⟩

/-- C9: `normalize()` strips the `+suffix` of a composite scheme before
rendering `scheme://host:port` — a scheme `http+x` renders starting with
`http://` — while `__eq__` compares the raw scheme verbatim, so
`URI("http+x") != URI("http")`. -/
theorem C9_normalize_strips_scheme_suffix :
    (∀ (rest hst : String) (p : Nat),
        (URI.mk ("http+" ++ rest) hst p).normalize
          = "http://" ++ hst ++ ":" ++ natDecStr p)
    ∧ (∀ (rest hst : String) (p : Nat),
        URI.eq ⟨"http+" ++ rest, hst, p⟩ ⟨"http", hst, p⟩ = false) := by
  constructor
  · intro rest hst p
    have hdata : ("http+" ++ rest).data = 'h' :: 't' :: 't' :: 'p' :: '+' :: rest.data := by
      rw [String.data_append]
      rfl
    have htw : (('h' :: 't' :: 't' :: 'p' :: '+' :: rest.data).takeWhile fun c => c ≠ '+')
        = ['h', 't', 't', 'p'] := by
      have : ('h' :: 't' :: 't' :: 'p' :: '+' :: rest.data)
          = ['h', 't', 't', 'p'] ++ '+' :: rest.data := rfl
      rw [this]
      exact takeWhile_append_stop (by decide) (by decide)
    rw [URI.normalize]
    show String.mk (("http+" ++ rest).data.takeWhile fun c => c ≠ '+')
        ++ "://" ++ hst ++ ":" ++ natDecStr p = _
    rw [hdata, htw]
    show "http" ++ "://" ++ hst ++ ":" ++ natDecStr p = _
    rw [show ("http" ++ "://" : String) = "http://" from rfl]
  · intro rest hst p
    have hne : ("http+" ++ rest) ≠ "http" := by
      intro h
      have hlen := congrArg String.length h
      rw [String.length_append] at hlen
      have h5 : ("http+" : String).length = 5 := rfl
      have h4 : ("http" : String).length = 4 := rfl
      omega
    have hA : (("http+" ++ rest) == ("http" : String)) = false :=
      beq_eq_false_iff_ne.2 hne
    simp [URI.eq, hA]

/-- C10: constructing a Client consumes one rotation of the pool —
`__init__` itself calls `get_host()` once, capturing `__current_host` and
advancing the shared cursor; over a fresh pool `[A, B, C]` the captured
host is `A` while the first request's `get_host()` selects `B`. -/
theorem C10_construction_consumes_one_rotation :
    (∀ c : Cluster, c.hosts ≠ [] →
        Client.make c = .ok ⟨⟨c.hosts, (c.next_index + 1) % c.hosts.length⟩,
          c.hosts.getD (c.next_index % c.hosts.length) URI.default⟩)
    ∧ Client.make clusterABC = .ok ⟨⟨[uA, uB, uC], 1⟩, uA⟩
    ∧ (⟨⟨[uA, uB, uC], 1⟩, uA⟩ : Client).cluster.get_host
        = .ok (uB, ⟨[uA, uB, uC], 2⟩) := by
  refine ⟨fun c h => ?_, rfl, rfl⟩
  simp only [Client.make, get_host_pos c h]

/-- Witness for C10 on the fresh pool `[A, B, C]`. -/
theorem C10_witness :
    clusterABC.hosts ≠ [] ∧ Client.make clusterABC = .ok ⟨⟨[uA, uB, uC], 1⟩, uA⟩ :=
  ⟨by decide, C10_construction_consumes_one_rotation.1 clusterABC (by decide)⟩

theorem countItemsFromList_length :
    ∀ (items : List JValue) (cis : List CountResultItem),
      countItemsFromList items = some cis → cis.length = items.length := by
  intro items
  induction items with
  | nil => intro cis h; cases h; rfl
  | cons x xs ih =>
      intro cis h
      rw [countItemsFromList] at h
      cases hx : CountResultItem.from_dict x with
      | none => rw [hx] at h; cases h
      | some c =>
          rw [hx] at h
          cases hxs : countItemsFromList xs with
          | none => rw [hxs] at h; cases h
          | some cs =>
              rw [hxs] at h
              cases h
              simp [ih cs hxs]

theorem countItemsFromList_getD :
    ∀ (items : List JValue) (cis : List CountResultItem),
      countItemsFromList items = some cis →
      ∀ i, i < items.length →
        CountResultItem.from_dict (items.getD i .jnull)
          = some (cis.getD i ⟨.jnull, .jnull⟩) := by
  intro items
  induction items with
  | nil => intro cis _ i hi; simp at hi
  | cons x xs ih =>
      intro cis h i hi
      rw [countItemsFromList] at h
      cases hx : CountResultItem.from_dict x with
      | none => rw [hx] at h; cases h
      | some c =>
          rw [hx] at h
          cases hxs : countItemsFromList xs with
          | none => rw [hxs] at h; cases h
          | some cs =>
              rw [hxs] at h
              cases h
              cases i with
              | zero => simpa using hx
              | succ j =>
                  have hj : j < xs.length := by simpa using hi
                  simpa using ih cs hxs j hj

/-- C3: `QueryResult.from_item` classifies a result element by JSON shape:
an object becomes a `BitmapResult` whose `bits`/`attributes` fall back to
`[]`/`{}` when the keys are absent (with no count items and count 0); an
array becomes the `CountResultItem`s of its elements in order; an integer
becomes a result carrying only that count, with an empty bitmap and no
count items. -/
theorem C3_decode_shape_dispatch :
    (∀ fields : List (String × JValue),
        QueryResult.from_item (.jobj fields)
          = some ⟨⟨truthyOr (lookupField fields "bits") (.jarr []),
                   truthyOr (lookupField fields "attrs") (.jobj [])⟩, [], 0⟩
        ∧ (lookupField fields "bits" = none →
            ∀ r, QueryResult.from_item (.jobj fields) = some r → r.bitmap.bits = .jarr [])
        ∧ (lookupField fields "attrs" = none →
            ∀ r, QueryResult.from_item (.jobj fields) = some r →
              r.bitmap.attributes = .jobj []))
    ∧ (∀ (items : List JValue) (cis : List CountResultItem),
        countItemsFromList items = some cis →
        QueryResult.from_item (.jarr items) = some ⟨BitmapResult.empty, cis, 0⟩
          ∧ cis.length = items.length
          ∧ ∀ i, i < items.length →
              CountResultItem.from_dict (items.getD i .jnull)
                = some (cis.getD i ⟨.jnull, .jnull⟩))
    ∧ (∀ n : Int, QueryResult.from_item (.jint n) = some ⟨BitmapResult.empty, [], n⟩) := by
  refine ⟨fun fields => ⟨rfl, ?_, ?_⟩, fun items cis h => ⟨?_, countItemsFromList_length items cis h, countItemsFromList_getD items cis h⟩, fun n => rfl⟩
  · intro hb r hr
    have hfi : QueryResult.from_item (.jobj fields)
        = some ⟨⟨truthyOr (lookupField fields "bits") (.jarr []),
            truthyOr (lookupField fields "attrs") (.jobj [])⟩, [], 0⟩ := rfl
    rw [hfi] at hr
    injection hr with h2
    subst h2
    simp [truthyOr, hb]
  · intro ha r hr
    have hfi : QueryResult.from_item (.jobj fields)
        = some ⟨⟨truthyOr (lookupField fields "bits") (.jarr []),
            truthyOr (lookupField fields "attrs") (.jobj [])⟩, [], 0⟩ := rfl
    rw [hfi] at hr
    injection hr with h2
    subst h2
    simp [truthyOr, ha]
  · simp [QueryResult.from_item, h]

/-- Witness for C3 on the spec's examples: one array element
`[(id 155, count 1)]` and the scalar count `2`. -/
theorem C3_witness :
    countItemsFromList [.jobj [("id", .jint 155), ("count", .jint 1)]]
        = some [⟨.jint 155, .jint 1⟩]
      ∧ QueryResult.from_item (.jarr [.jobj [("id", .jint 155), ("count", .jint 1)]])
          = some ⟨BitmapResult.empty, [⟨.jint 155, .jint 1⟩], 0⟩
      ∧ QueryResult.from_item (.jint 2) = some ⟨BitmapResult.empty, [], 2⟩ :=
  ⟨rfl,
    (C3_decode_shape_dispatch.2.1 [.jobj [("id", .jint 155), ("count", .jint 1)]]
      [⟨.jint 155, .jint 1⟩] rfl).1,
    C3_decode_shape_dispatch.2.2 2⟩

/-- C1 (code behavior at the failing input): over the fresh pool
`[A, B, C]`, construction captures `__current_host = A` and advances the
cursor; the first request's `get_host()` call returns `B`, and a
connection error on that request removes `A` — the construction-captured
host — leaving the failed host `B` in the pool.  This contradicts the
claim that the host removed is the one returned by the same `next()` call
used for the failing request. -/
theorem C1_stale_host_removed_on_failure :
    Client.make clusterABC = .ok ⟨⟨[uA, uB, uC], 1⟩, uA⟩
    ∧ (⟨⟨[uA, uB, uC], 1⟩, uA⟩ : Client).cluster.get_host = .ok (uB, ⟨[uA, uB, uC], 2⟩)
    ∧ (⟨⟨[uA, uB, uC], 1⟩, uA⟩ : Client).httpRequest netDown "post" "/query?db=mydb"
          "Bitmap(id=1)" .rawResponse
        = (⟨⟨[uB, uC], 2⟩, uA⟩, .error (.notAvailable "connection refused"))
    ∧ uB ≠ uA ∧ uB ∈ [uB, uC] ∧ uA ∉ [uB, uC] :=
  ⟨rfl, rfl, rfl, by decide, by decide, by decide⟩

/-- C2 counterexample: a response whose JSON body has no `error` key but
contains a malformed result item (`[[{}]]`) makes `query` raise a
Python-level decode error (`KeyError`) instead of returning a
`QueryResponse`. -/
theorem C2_counterexample :
    lookupField [("results", .jarr [.jarr [.jobj []]])] "error" = none
      ∧ (clSingleA.query (netConst respNoErrBad) qMy false).2 = .error .pyError :=
  ⟨rfl, rfl⟩

/-- C2 (amended): for a query call whose transport delivers a response
with JSON body `fields`, an `error` key makes `query` raise
`QueryError` (`PilosaError`) carrying exactly that message, regardless of
the HTTP status; without an `error` key, and provided the body decodes
per the response model, `query` returns the decoded `QueryResponse`
without raising, again regardless of the HTTP status (the status is
unconstrained throughout). -/
theorem C2_query_error_surfacing
    (cl : Client) (net : Net) (q : PQLQuery) (profiles : Bool)
    (uri : URI) (cluster1 : Cluster) (resp : HttpResponse)
    (fields : List (String × JValue))
    (hsel : cl.cluster.get_host = .ok (uri, cluster1))
    (hnet : net "post"
        (uri.normalize ++ ("/query?db=" ++ q.database.name
          ++ (if profiles then "&profiles=true" else ""))) q.text = .ok resp)
    (hjson : resp.json = .jobj fields) :
    (∀ v, lookupField fields "error" = some v →
        (cl.query net q profiles).2 = .error (.pilosaError v))
    ∧ (lookupField fields "error" = none →
        ∀ qr, QueryResponse.from_dict (.jobj fields) = some qr →
          (cl.query net q profiles).2 = .ok qr) := by
  have hraw : cl.httpRequest net "post"
      ("/query?db=" ++ q.database.name ++ (if profiles then "&profiles=true" else ""))
      q.text .rawResponse = (⟨cluster1, cl.current_host⟩, .ok (some resp)) := by
    simp only [Client.httpRequest, hsel, hnet]
  constructor
  · intro v hv
    simp only [Client.query, hraw, hjson, hv]
  · intro hnone qr hqr
    simp only [Client.query, hraw, hjson, hnone, hqr]

/-- Witness for C2 (amended): a 400 response carrying
`"error": "parse error at col_id"` surfaces exactly that message. -/
theorem C2_witness :
    (netConst respErr) "post"
        (uA.normalize ++ ("/query?db=" ++ qMy.database.name
          ++ (if false then "&profiles=true" else ""))) qMy.text = .ok respErr
      ∧ (clSingleA.query (netConst respErr) qMy false).2
          = .error (.pilosaError (.jstr "parse error at col_id")) :=
  ⟨rfl,
    (C2_query_error_surfacing clSingleA (netConst respErr) qMy false uA ⟨[uA], 0⟩
        respErr [("error", .jstr "parse error at col_id")] rfl rfl rfl).1
      (.jstr "parse error at col_id") rfl⟩

/-- C6: `ensure_database` / `ensure_frame` call the corresponding create
operation and swallow exactly its `AlreadyExistsError`
(`DatabaseExistsError` / `FrameExistsError`); every other outcome —
success or any other error — passes through unchanged.  The final clause
is the idempotence scenario: when the server answers the create with the
exact conflict body (as it does once the database exists), a repeated
`ensure_database` raises nothing. -/
theorem C6_ensure_swallows_only_already_exists :
    (∀ (cl : Client) (net : Net) (db : Database) (cl1 : Client) (u : Unit),
        cl.create_database net db = (cl1, .ok u) →
        cl.ensure_database net db = (cl1, .ok u))
    ∧ (∀ (cl : Client) (net : Net) (db : Database) (cl1 : Client),
        cl.create_database net db = (cl1, .error .databaseExists) →
        cl.ensure_database net db = (cl1, .ok ()))
    ∧ (∀ (cl : Client) (net : Net) (db : Database) (cl1 : Client) (e : Raised),
        e ≠ .databaseExists → cl.create_database net db = (cl1, .error e) →
        cl.ensure_database net db = (cl1, .error e))
    ∧ (∀ (cl : Client) (net : Net) (f : Frame) (cl1 : Client) (u : Unit),
        cl.create_frame net f = (cl1, .ok u) →
        cl.ensure_frame net f = (cl1, .ok u))
    ∧ (∀ (cl : Client) (net : Net) (f : Frame) (cl1 : Client),
        cl.create_frame net f = (cl1, .error .frameExists) →
        cl.ensure_frame net f = (cl1, .ok ()))
    ∧ (∀ (cl : Client) (net : Net) (f : Frame) (cl1 : Client) (e : Raised),
        e ≠ .frameExists → cl.create_frame net f = (cl1, .error e) →
        cl.ensure_frame net f = (cl1, .error e))
    ∧ (∀ (cl : Client) (net : Net) (db : Database) (uri : URI) (cluster1 : Cluster)
          (resp : HttpResponse),
        cl.cluster.get_host = .ok (uri, cluster1) →
        net "post" (uri.normalize ++ "/db") (dbData db) = .ok resp →
        ¬ (200 ≤ resp.status ∧ resp.status < 300) →
        resp.text = "database already exists\n" →
        (cl.ensure_database net db).2 = .ok ()) := by
  refine ⟨?_, ?_, ?_, ?_, ?_, ?_, ?_⟩
  · intro cl net db cl1 u h
    simp only [Client.ensure_database, h]
  · intro cl net db cl1 h
    simp only [Client.ensure_database, h]
  · intro cl net db cl1 e hne h
    simp only [Client.ensure_database, h]
    cases e with
    | databaseExists => exact absurd rfl hne
    | pilosaError v => rfl
    | serverError s t => rfl
    | notAvailable m => rfl
    | uriError m => rfl
    | frameExists => rfl
    | valueError => rfl
    | pyError => rfl
  · intro cl net f cl1 u h
    simp only [Client.ensure_frame, h]
  · intro cl net f cl1 h
    simp only [Client.ensure_frame, h]
  · intro cl net f cl1 e hne h
    simp only [Client.ensure_frame, h]
    cases e with
    | frameExists => exact absurd rfl hne
    | pilosaError v => rfl
    | serverError s t => rfl
    | notAvailable m => rfl
    | uriError m => rfl
    | databaseExists => rfl
    | valueError => rfl
    | pyError => rfl
  · intro cl net db uri cluster1 resp hsel hnet hst htxt
    have hhttp : cl.httpRequest net "post" "/db" (dbData db) .noResponse
        = (⟨cluster1, cl.current_host⟩, .error .databaseExists) := by
      simp only [Client.httpRequest, hsel, hnet]
      rw [if_neg hst, htxt]
      simp [recognizedError]
    have hcr : cl.create_database net db
        = (⟨cluster1, cl.current_host⟩, .error .databaseExists) := by
      simp only [Client.create_database, Client.create_or_delete_database, hhttp]
    simp only [Client.ensure_database, hcr]

/-- Witness for C6: over the single-host pool, a 409 conflict response to
the create makes `create_database` raise `DatabaseExistsError` while
`ensure_database` raises nothing. -/
theorem C6_witness :
    clSingleA.cluster.get_host = .ok (uA, ⟨[uA], 0⟩)
      ∧ (netConst respDbExists) "post" (uA.normalize ++ "/db") (dbData dbMy)
          = .ok respDbExists
      ∧ (clSingleA.ensure_database (netConst respDbExists) dbMy).2 = .ok () :=
  ⟨rfl, rfl,
    C6_ensure_swallows_only_already_exists.2.2.2.2.2.2 clSingleA
      (netConst respDbExists) dbMy uA ⟨[uA], 0⟩ respDbExists rfl rfl
      (by decide) rfl⟩

/-- C7: for the shared request path of the four schema operations (mode
`__NO_RESPONSE`): a non-2xx response whose body text is exactly
`"database already exists\n"` or `"frame already exists\n"` raises the
typed exists-error, any other non-2xx raises
`PilosaError("Server error (%d): %s", status, body)`, and a 2xx response
raises nothing; each of `create_database`, `delete_database`,
`create_frame`, `delete_frame` is exactly this request with its fixed
method, path and serialized body. -/
theorem C7_schema_error_mapping
    (cl : Client) (net : Net) (method path data : String)
    (uri : URI) (cluster1 : Cluster) (resp : HttpResponse)
    (hsel : cl.cluster.get_host = .ok (uri, cluster1))
    (hnet : net method (uri.normalize ++ path) data = .ok resp) :
    (¬ (200 ≤ resp.status ∧ resp.status < 300) →
        resp.text = "database already exists\n" →
        (cl.httpRequest net method path data .noResponse).2 = .error .databaseExists)
    ∧ (¬ (200 ≤ resp.status ∧ resp.status < 300) →
        resp.text = "frame already exists\n" →
        (cl.httpRequest net method path data .noResponse).2 = .error .frameExists)
    ∧ (¬ (200 ≤ resp.status ∧ resp.status < 300) →
        resp.text ≠ "database already exists\n" →
        resp.text ≠ "frame already exists\n" →
        (cl.httpRequest net method path data .noResponse).2
          = .error (.serverError resp.status resp.text))
    ∧ ((200 ≤ resp.status ∧ resp.status < 300) →
        (cl.httpRequest net method path data .noResponse).2 = .ok none)
    ∧ (∀ db : Database, cl.create_database net db
        = ((cl.httpRequest net "post" "/db" (dbData db) .noResponse).1,
           (cl.httpRequest net "post" "/db" (dbData db) .noResponse).2.map fun _ => ()))
    ∧ (∀ db : Database, cl.delete_database net db
        = ((cl.httpRequest net "delete" "/db" (dbData db) .noResponse).1,
           (cl.httpRequest net "delete" "/db" (dbData db) .noResponse).2.map fun _ => ()))
    ∧ (∀ f : Frame, cl.create_frame net f
        = ((cl.httpRequest net "post" "/frame" (frameData f) .noResponse).1,
           (cl.httpRequest net "post" "/frame" (frameData f) .noResponse).2.map fun _ => ()))
    ∧ (∀ f : Frame, cl.delete_frame net f
        = ((cl.httpRequest net "delete" "/frame" (frameData f) .noResponse).1,
           (cl.httpRequest net "delete" "/frame" (frameData f) .noResponse).2.map fun _ => ())) := by
  refine ⟨?_, ?_, ?_, ?_, ?_, ?_, ?_, ?_⟩
  · intro hst htxt
    simp only [Client.httpRequest, hsel, hnet]
    rw [if_neg hst, htxt]
    simp [recognizedError]
  · intro hst htxt
    simp only [Client.httpRequest, hsel, hnet]
    rw [if_neg hst, htxt]
    simp [recognizedError]
  · intro hst h1 h2
    have hrec : recognizedError resp.text = none := by
      rw [recognizedError, if_neg h1, if_neg h2]
    simp only [Client.httpRequest, hsel, hnet]
    rw [if_neg hst, hrec]
  · intro hst
    simp only [Client.httpRequest, hsel, hnet]
    rw [if_pos hst]
  · intro db
    rcases h : cl.httpRequest net "post" "/db" (dbData db) .noResponse with ⟨cl1, r⟩
    cases r <;> simp [Client.create_database, Client.create_or_delete_database, h, Except.map]
  · intro db
    rcases h : cl.httpRequest net "delete" "/db" (dbData db) .noResponse with ⟨cl1, r⟩
    cases r <;> simp [Client.delete_database, Client.create_or_delete_database, h, Except.map]
  · intro f
    rcases h : cl.httpRequest net "post" "/frame" (frameData f) .noResponse with ⟨cl1, r⟩
    cases r <;> simp [Client.create_frame, Client.create_or_delete_frame, h, Except.map]
  · intro f
    rcases h : cl.httpRequest net "delete" "/frame" (frameData f) .noResponse with ⟨cl1, r⟩
    cases r <;> simp [Client.delete_frame, Client.create_or_delete_frame, h, Except.map]

/-- Witness for C7: a 409 conflict body raises the typed error through the
schema request path. -/
theorem C7_witness :
    clSingleA.cluster.get_host = .ok (uA, ⟨[uA], 0⟩)
      ∧ (netConst respDbExists) "post" (uA.normalize ++ "/db") (dbData dbMy)
          = .ok respDbExists
      ∧ (clSingleA.httpRequest (netConst respDbExists) "post" "/db" (dbData dbMy)
            .noResponse).2 = .error .databaseExists :=
  ⟨rfl, rfl,
    (C7_schema_error_mapping clSingleA (netConst respDbExists) "post" "/db"
        (dbData dbMy) uA ⟨[uA], 0⟩ respDbExists rfl rfl).1 (by decide) rfl⟩

end Pilosa
